import Mathlib

/-!
# The LiteLLM user resource: a verification development

Shallow embedding of `litellm/resource_user.go`: the Terraform resource
`litellm_user`, its schema, the write payload built by `buildUserData`, and
the four operations Create, Read, Update and Delete, followed by theorems
about them.

Modelling conventions.

* `schema.ResourceData` is a record holding the resource identifier and the
  current value of each of the eleven attributes of the schema. As in the
  plugin SDK, an attribute that was never given a value reads as the zero
  value of its type, `Get` on a key the schema does not declare yields nil,
  and `GetOk` reports `ok` exactly when the key is declared and its value is
  not the zero value of its type.
* A Go `map[string]interface{}` is an association list with at most one
  entry per key; `m[k] = v` is `Payload.set`.
* `float64` values are only stored, compared with zero and copied; they are
  represented by rationals.
* The remote server is a script of replies held by the client handle; every
  request consumes the next reply and is appended to the log `sent`.
* `log.Printf` and `time.Sleep` have no effect on the state and are dropped;
  the identifier drawn by `uuid.New().String()` is an argument of Create.
-/

namespace litellm

/-! ## Values, payloads -/

/-- A dynamically typed value (`interface{}`) as it occurs in attributes and payloads. -/
inductive Value where
  | null
  | str (s : String)
  | float (q : Rat)
  | int (i : Int)
  | bool (b : Bool)
  | list (xs : List String)
  deriving DecidableEq, Repr

/-- The type assertion `v.(string)`; it is only applied to string attributes. -/
def Value.assertString : Value → String
  | .str s => s
  | _ => ""

/-- A `map[string]interface{}`: association list, one entry per key. -/
abbrev Payload := List (String × Value)

/-- The map assignment `m[k] = v`. -/
def Payload.set : Payload → String → Value → Payload
  | [], k, v => [(k, v)]
  | (k0, v0) :: rest, k, v =>
    if k0 = k then (k, v) :: rest else (k0, v0) :: Payload.set rest k v

/-- The map read `m[k]`, `none` when the key is absent. -/
def Payload.get : Payload → String → Option Value
  | [], _ => none
  | (k0, v0) :: rest, k => if k0 = k then some v0 else Payload.get rest k

/-- The keys of a map. -/
def Payload.keys (m : Payload) : List String := m.map Prod.fst

/-! ## Schema -/

/-- The value types of the plugin SDK used by this resource. -/
inductive ValueType where
  | TypeString
  | TypeFloat
  | TypeInt
  | TypeBool
  | TypeList
  deriving DecidableEq, Repr

/-- The zero value of a schema type (`ValueType.Zero` of the SDK). -/
def ValueType.Zero : ValueType → Value
  | .TypeString => .str ""
  | .TypeFloat => .float 0
  | .TypeInt => .int 0
  | .TypeBool => .bool false
  | .TypeList => .list []

/-- One attribute declaration of the schema. -/
structure Schema where
  Typ : ValueType
  Optional : Bool
  Required : Bool
  deriving DecidableEq, Repr

/-- The `Schema` table of `ResourceLiteLLMUser`. -/
def ResourceLiteLLMUser : List (String × Schema) :=
  [ ("user_email", ⟨.TypeString, true, false⟩),
    ("user_alias", ⟨.TypeString, true, false⟩),
    ("key_alias", ⟨.TypeString, true, false⟩),
    ("user_role", ⟨.TypeString, false, true⟩),
    ("max_budget", ⟨.TypeFloat, true, false⟩),
    ("models", ⟨.TypeList, true, false⟩),
    ("tpm_limit", ⟨.TypeInt, true, false⟩),
    ("rpm_limit", ⟨.TypeInt, true, false⟩),
    ("auto_create_key", ⟨.TypeBool, true, false⟩),
    ("send_user_invite", ⟨.TypeBool, true, false⟩),
    ("teams", ⟨.TypeList, true, false⟩) ]

/-- Schema lookup by attribute name. -/
def schemaOf (key : String) : Option Schema :=
  (ResourceLiteLLMUser.find? (fun e => e.1 = key)).map Prod.snd

/-- An attribute the schema declares with `Optional: true`. -/
def isOptionalField (key : String) : Bool :=
  match schemaOf key with
  | some s => s.Optional
  | none => false

/-! ## Resource data -/

/-- The resource state: identifier and attribute values. -/
structure ResourceData where
  id : String
  user_email : String
  user_alias : String
  key_alias : String
  user_role : String
  max_budget : Rat
  models : List String
  tpm_limit : Int
  rpm_limit : Int
  auto_create_key : Bool
  send_user_invite : Bool
  teams : List String
  deriving DecidableEq, Repr

/-- The method `d.Id()`. -/
def ResourceData.Id (d : ResourceData) : String := d.id

/-- The method `d.SetId(v)`. -/
def ResourceData.SetId (d : ResourceData) (v : String) : ResourceData :=
  { d with id := v }

/-- The method `d.Get(key)`: the attribute value, nil for an undeclared key. -/
def ResourceData.Get (d : ResourceData) (key : String) : Value :=
  if key = "user_email" then .str d.user_email
  else if key = "user_alias" then .str d.user_alias
  else if key = "key_alias" then .str d.key_alias
  else if key = "user_role" then .str d.user_role
  else if key = "max_budget" then .float d.max_budget
  else if key = "models" then .list d.models
  else if key = "tpm_limit" then .int d.tpm_limit
  else if key = "rpm_limit" then .int d.rpm_limit
  else if key = "auto_create_key" then .bool d.auto_create_key
  else if key = "send_user_invite" then .bool d.send_user_invite
  else if key = "teams" then .list d.teams
  else .null

/-- The method `d.GetOk(key)`: the value and whether it is set to a non-zero value. -/
def ResourceData.GetOk (d : ResourceData) (key : String) : Value × Bool :=
  match schemaOf key with
  | none => (.null, false)
  | some s => (d.Get key, decide (d.Get key ≠ s.Typ.Zero))

/-- The method `d.Set(key, value)`; its error result is discarded by every caller,
so a value of the wrong type or an undeclared key leaves the state as it is. -/
def ResourceData.Set (d : ResourceData) (key : String) (v : Value) : ResourceData :=
  if key = "user_email" then
    match v with | .str s => { d with user_email := s } | _ => d
  else if key = "user_alias" then
    match v with | .str s => { d with user_alias := s } | _ => d
  else if key = "key_alias" then
    match v with | .str s => { d with key_alias := s } | _ => d
  else if key = "user_role" then
    match v with | .str s => { d with user_role := s } | _ => d
  else if key = "max_budget" then
    match v with | .float q => { d with max_budget := q } | _ => d
  else if key = "models" then
    match v with | .list xs => { d with models := xs } | _ => d
  else if key = "tpm_limit" then
    match v with | .int i => { d with tpm_limit := i } | _ => d
  else if key = "rpm_limit" then
    match v with | .int i => { d with rpm_limit := i } | _ => d
  else if key = "auto_create_key" then
    match v with | .bool b => { d with auto_create_key := b } | _ => d
  else if key = "send_user_invite" then
    match v with | .bool b => { d with send_user_invite := b } | _ => d
  else if key = "teams" then
    match v with | .list xs => { d with teams := xs } | _ => d
  else d

/-! ## Payload construction -/

/-- The key list iterated by `buildUserData`. -/
def userDataKeys : List String :=
  ["user_email", "user_alias", "key_alias", "user_role", "max_budget", "models",
   "tpm_limit", "rpm_limit", "auto_create_keys", "send_email_invite"]

/-- One iteration of the loop of `buildUserData`. -/
def buildUserDataStep (d : ResourceData) (userData : Payload) (key : String) : Payload :=
  match d.GetOk key with
  | (v, true) => userData.set key v
  | (_, false) => userData

/-- The function `buildUserData`. -/
def buildUserData (d : ResourceData) (userID : String) : Payload :=
  let userData : Payload :=
    [("user_id", .str userID), ("user_alias", .str (d.Get "user_alias").assertString)]
  userDataKeys.foldl (buildUserDataStep d) userData

/-! ## The remote API -/

def endpointUserNew : String := "/user/new"
def endpointUserInfo : String := "/user/info"
def endpointUserUpdate : String := "/user/update"
def endpointUserDelete : String := "/user/delete"

/-- Modelled from the spec: the JSON object of a user-info response body, as
the server sends it. The remote record mirrors the attributes of the resource;
its entries are listed here under the attribute they mirror. -/
structure UserRemoteRecord where
  user_email : String
  user_alias : String
  key_alias : String
  user_role : String
  max_budget : Rat
  models : List String
  tpm_limit : Int
  rpm_limit : Int
  auto_create_key : Bool
  send_user_invite : Bool
  teams : List String
  deriving DecidableEq, Repr

/-- Modelled from the spec: the type `UserResponse` is declared outside
`resource_user.go`; its fields are the ten that Read copies, under the names
the source uses. Go exports a field exactly when its name starts with an
upper-case letter: `MaxBudget`, `Models`, `TPMLimit`, `RPMLimit` and `Teams`
are exported, `userEmail`, `userAlias`, `userRole`, `autoCreateKey` and
`sendEmailInvite` are not. -/
structure UserResponse where
  userEmail : String
  userAlias : String
  userRole : String
  MaxBudget : Rat
  Models : List String
  TPMLimit : Int
  RPMLimit : Int
  autoCreateKey : Bool
  sendEmailInvite : Bool
  Teams : List String
  deriving DecidableEq, Repr

/-- The call `json.NewDecoder(resp.Body).Decode(&userResp)` on a body that
parses, starting from the zero `UserResponse` of `var userResp UserResponse`.
The decoder of `encoding/json` stores into exported fields only: each exported
field receives the entry of the body it mirrors, each unexported field keeps
its zero value. -/
def decodeUserResponse (body : UserRemoteRecord) : UserResponse :=
  { userEmail := "", userAlias := "", userRole := "",
    MaxBudget := body.max_budget, Models := body.models,
    TPMLimit := body.tpm_limit, RPMLimit := body.rpm_limit,
    autoCreateKey := false, sendEmailInvite := false,
    Teams := body.teams }

/-- A request handed to the HTTP client: method, path and optional JSON body. -/
structure Request where
  Method : String
  Path : String
  Body : Option Payload
  deriving DecidableEq, Repr

/-- An HTTP response: its status code and the JSON object its body stream
holds (`none` when the body does not parse, so that the decoder fails). -/
structure Response where
  StatusCode : Nat
  Body : Option UserRemoteRecord
  deriving DecidableEq, Repr

/-- What the HTTP client returns: a transport error or a response. -/
inductive Reply where
  | failure (msg : String)
  | response (resp : Response)
  deriving DecidableEq, Repr

/-- The Go `error` values the operations return. -/
inductive Err where
  | transport (msg : String)
  | api (label : String) (status : Nat)
  | decode
  | wrap (context : String) (cause : Err)
  deriving DecidableEq, Repr

/-- The client handle together with the remote side: the replies the server
will give, in order, and the log of requests sent so far. -/
structure Client where
  script : Nat → Reply
  sent : List Request

/-- Modelled from the spec: `MakeRequest` is defined outside `resource_user.go`.
The HTTP client performs the request given method, path and JSON-serializable
body and returns a response with status code and body stream, or an error
when the request could not be sent or the response could not be read. -/
def MakeRequest (client : Client) (method path : String) (body : Option Payload) :
    Client × Reply :=
  ({ client with sent := client.sent ++ [⟨method, path, body⟩] },
   client.script client.sent.length)

/-- Modelled from the spec: `handleResponse` is defined outside
`resource_user.go`. Given a response and an operation label it returns an
error if the status indicates failure (non-2xx), else nil; the error message
includes the operation label. -/
def handleResponse (resp : Response) (label : String) : Option Err :=
  if 200 ≤ resp.StatusCode ∧ resp.StatusCode < 300 then none
  else some (.api label resp.StatusCode)

/-- The constant `http.StatusNotFound`. -/
def StatusNotFound : Nat := 404

/-! ## The four operations -/

/-- What an operation leaves behind: the returned error (`none` for nil), the
resource state and the client. -/
structure Outcome where
  err : Option Err
  d : ResourceData
  client : Client

/-- The function `resourceLiteLLMUserRead`. -/
def resourceLiteLLMUserRead (d : ResourceData) (client : Client) : Outcome :=
  match MakeRequest client "GET" (endpointUserInfo ++ "?user_id=" ++ d.Id) none with
  | (client1, .failure msg) =>
    ⟨some (.wrap "error reading user" (.transport msg)), d, client1⟩
  | (client1, .response resp) =>
    if resp.StatusCode = StatusNotFound then
      ⟨none, d.SetId "", client1⟩
    else
      match resp.Body with
      | none => ⟨some (.wrap "error decoding user info response" .decode), d, client1⟩
      | some body =>
        let userResp := decodeUserResponse body
        let d1 := d.Set "user_email" (.str userResp.userEmail)
        let d2 := d1.Set "user_alias" (.str userResp.userAlias)
        let d3 := d2.Set "user_role" (.str userResp.userRole)
        let d4 := d3.Set "max_budget" (.float userResp.MaxBudget)
        let d5 := d4.Set "models" (.list userResp.Models)
        let d6 := d5.Set "tpm_limit" (.int userResp.TPMLimit)
        let d7 := d6.Set "rpm_limit" (.int userResp.RPMLimit)
        let d8 := d7.Set "auto_create_key" (.bool userResp.autoCreateKey)
        let d9 := d8.Set "send_user_invite" (.bool userResp.sendEmailInvite)
        let d10 := d9.Set "teams" (.list userResp.Teams)
        ⟨none, d10, client1⟩

/-- The function `resourceLiteLLMUserCreate`; `userID` is the identifier drawn
by `uuid.New().String()`. -/
def resourceLiteLLMUserCreate (d : ResourceData) (client : Client) (userID : String) :
    Outcome :=
  let userData := buildUserData d userID
  match MakeRequest client "POST" endpointUserNew (some userData) with
  | (client1, .failure msg) =>
    ⟨some (.wrap "error creating user" (.transport msg)), d, client1⟩
  | (client1, .response resp) =>
    match handleResponse resp "creating user" with
    | some e => ⟨some e, d, client1⟩
    | none => resourceLiteLLMUserRead (d.SetId userID) client1

/-- The function `resourceLiteLLMUserUpdate`. -/
def resourceLiteLLMUserUpdate (d : ResourceData) (client : Client) : Outcome :=
  let userData := buildUserData d d.Id
  match MakeRequest client "POST" endpointUserUpdate (some userData) with
  | (client1, .failure msg) =>
    ⟨some (.wrap "error updating user" (.transport msg)), d, client1⟩
  | (client1, .response resp) =>
    match handleResponse resp "updating user" with
    | some e => ⟨some e, d, client1⟩
    | none => resourceLiteLLMUserRead d client1

/-- The function `resourceLiteLLMUserDelete`. -/
def resourceLiteLLMUserDelete (d : ResourceData) (client : Client) : Outcome :=
  let deleteData : Payload := [("user_ids", .list [d.Id])]
  match MakeRequest client "POST" endpointUserDelete (some deleteData) with
  | (client1, .failure msg) =>
    ⟨some (.wrap "error deleting user" (.transport msg)), d, client1⟩
  | (client1, .response resp) =>
    match handleResponse resp "deleting user" with
    | some e => ⟨some e, d, client1⟩
    | none => ⟨none, d.SetId "", client1⟩

/-! ## Vocabulary of the theorems: reply classes, the state after Read, the Read request -/

/-- The reply is a response whose status code is a success (2xx). -/
def Reply.isSuccess : Reply → Bool
  | .failure _ => false
  | .response resp => decide (200 ≤ resp.StatusCode ∧ resp.StatusCode < 300)

/-- The reply is a response whose status code is 404. -/
def Reply.isNotFound : Reply → Bool
  | .failure _ => false
  | .response resp => decide (resp.StatusCode = StatusNotFound)

/-- The state after Read has copied the decoded `UserResponse` `r` into `d`. -/
def ResourceData.afterRead (d : ResourceData) (r : UserResponse) : ResourceData :=
  { id := d.id, user_email := r.userEmail, user_alias := r.userAlias,
    key_alias := d.key_alias, user_role := r.userRole, max_budget := r.MaxBudget,
    models := r.Models, tpm_limit := r.TPMLimit, rpm_limit := r.RPMLimit,
    auto_create_key := r.autoCreateKey, send_user_invite := r.sendEmailInvite,
    teams := r.Teams }

/-- The GET request Read sends for the identifier `id`. -/
def readRequest (id : String) : Request := ⟨"GET", "/user/info?user_id=" ++ id, none⟩

/-! ## Sample inputs -/

/-- A state in which only the required attribute `user_role` has a value. -/
def roleOnly : ResourceData :=
  { id := "", user_email := "", user_alias := "", key_alias := "", user_role := "customer",
    max_budget := 0, models := [], tpm_limit := 0, rpm_limit := 0,
    auto_create_key := false, send_user_invite := false, teams := [] }

/-- A tracked resource with identifier `u1` and every attribute given a value. -/
def fullState : ResourceData :=
  { id := "u1", user_email := "a@b.c", user_alias := "al", key_alias := "ka",
    user_role := "internal_user", max_budget := 100, models := ["gpt-4"], tpm_limit := 10,
    rpm_limit := 20, auto_create_key := true, send_user_invite := true, teams := ["t1"] }

/-- A response body differing from `fullState` in every entry but the two flags. -/
def sampleRecord : UserRemoteRecord :=
  { user_email := "x@y.z", user_alias := "remote", key_alias := "rk", user_role := "customer",
    max_budget := 5, models := ["m"], tpm_limit := 1, rpm_limit := 2,
    auto_create_key := true, send_user_invite := true, teams := ["t2"] }

/-- A client whose server answers every request with the given reply. -/
def constClient (r : Reply) : Client := ⟨fun _ => r, []⟩

/-- A client whose server answers the first request with `r0` and all later ones with `r1`. -/
def twoStepClient (r0 r1 : Reply) : Client := ⟨fun n => if n = 0 then r0 else r1, []⟩

/-! ## Lemmas on payloads -/

theorem Payload.get_set (m : Payload) (k k1 : String) (v : Value) :
    (m.set k v).get k1 = if k = k1 then some v else m.get k1 := by
  induction m with
  | nil => simp [Payload.set, Payload.get]
  | cons e rest ih =>
    obtain ⟨k0, v0⟩ := e
    by_cases h0 : k0 = k
    · subst h0
      by_cases h1 : k0 = k1 <;> simp [Payload.set, Payload.get, h1]
    · by_cases h1 : k0 = k1
      · subst h1
        have h2 : ¬ k = k0 := fun h => h0 h.symm
        simp [Payload.set, Payload.get, h0, h2]
      · simp [Payload.set, Payload.get, h0, h1, ih]

theorem Payload.mem_keys_iff (m : Payload) (k : String) :
    k ∈ m.keys ↔ m.get k ≠ none := by
  induction m with
  | nil => simp [Payload.keys, Payload.get]
  | cons e rest ih =>
    obtain ⟨k0, v0⟩ := e
    by_cases h0 : k0 = k
    · simp [Payload.keys, Payload.get, h0]
    · have h1 : ¬ k = k0 := fun h => h0 h.symm
      have ih1 : k ∈ List.map Prod.fst rest ↔ Payload.get rest k ≠ none := ih
      simp [Payload.keys, Payload.get, h0, h1, ih1]

theorem get_foldl_buildUserDataStep (d : ResourceData) (keys : List String) (m : Payload)
    (k : String) :
    (keys.foldl (buildUserDataStep d) m).get k =
      if k ∈ keys ∧ (d.GetOk k).2 = true then some (d.GetOk k).1 else m.get k := by
  induction keys generalizing m with
  | nil => simp
  | cons key rest ih =>
    rw [List.foldl_cons, ih]
    by_cases hk : key = k
    · subst hk
      cases hok : (d.GetOk key).2 with
      | true =>
        have hpair : d.GetOk key = ((d.GetOk key).1, true) := by rw [← hok]
        simp only [buildUserDataStep]
        rw [hpair]
        simp [Payload.get_set]
      | false =>
        have hpair : d.GetOk key = ((d.GetOk key).1, false) := by rw [← hok]
        simp only [buildUserDataStep]
        rw [hpair]
        simp
    · have hk1 : ¬ k = key := fun h => hk h.symm
      have hstep : (buildUserDataStep d m key).get k = m.get k := by
        simp only [buildUserDataStep]
        split
        · simp [Payload.get_set, hk]
        · rfl
      simp [hk1, hstep]

/-- The entry of the payload under any key, in closed form. -/
theorem buildUserData_get (d : ResourceData) (userID k : String) :
    (buildUserData d userID).get k =
      if k ∈ userDataKeys ∧ (d.GetOk k).2 = true then some (d.GetOk k).1
      else if k = "user_id" then some (.str userID)
      else if k = "user_alias" then some (.str d.user_alias)
      else none := by
  unfold buildUserData
  rw [get_foldl_buildUserDataStep]
  by_cases h1 : k = "user_id"
  · subst h1
    simp [Payload.get, ResourceData.Get, Value.assertString]
  · by_cases h2 : k = "user_alias"
    · subst h2
      simp [Payload.get, ResourceData.Get, Value.assertString]
    · have h1s : ¬ "user_id" = k := fun h => h1 h.symm
      have h2s : ¬ "user_alias" = k := fun h => h2 h.symm
      simp [Payload.get, h1, h2, h1s, h2s]

theorem GetOk_fst_of_ok (d : ResourceData) (k : String) (h : (d.GetOk k).2 = true) :
    (d.GetOk k).1 = d.Get k := by
  unfold ResourceData.GetOk at h ⊢
  cases hs : schemaOf k with
  | none => rw [hs] at h; simp at h
  | some sch => rfl

theorem GetOk_declared_of_ok (d : ResourceData) (k : String) (h : (d.GetOk k).2 = true) :
    schemaOf k ≠ none := by
  unfold ResourceData.GetOk at h
  intro hs
  rw [hs] at h
  simp at h

/-! ## Theorems on payload construction -/

/-- C1, as the claim states it, fails: in the state `roleOnly` the attribute
`user_alias` is unset, yet the payload holds the entry `user_alias` with the
empty string; and the payload holds the key `user_role`, which the schema
declares required, not optional. -/
theorem buildUserData_leaks_unset_user_alias :
    "user_alias" ∈ (buildUserData roleOnly "u1").keys ∧
    (roleOnly.GetOk "user_alias").2 = false ∧
    (buildUserData roleOnly "u1").get "user_alias" = some (.str "") ∧
    "user_role" ∈ (buildUserData roleOnly "u1").keys ∧
    isOptionalField "user_role" = false := by
  decide

/-- C1, amended: every key of the payload other than `user_id` and `user_alias`
names an optional attribute or the required attribute `user_role`, the state
reports a set (non-zero) value for it, and the payload carries that value. -/
theorem buildUserData_keys_are_set (d : ResourceData) (userID k : String)
    (hk : k ∈ (buildUserData d userID).keys) (hid : k ≠ "user_id")
    (halias : k ≠ "user_alias") :
    (isOptionalField k = true ∨ k = "user_role") ∧ (d.GetOk k).2 = true ∧
      (buildUserData d userID).get k = some (d.Get k) := by
  rw [Payload.mem_keys_iff, buildUserData_get] at hk
  by_cases hc : k ∈ userDataKeys ∧ (d.GetOk k).2 = true
  · obtain ⟨hmem, hok⟩ := hc
    have hdecl := GetOk_declared_of_ok d k hok
    refine ⟨?_, hok, ?_⟩
    · simp only [userDataKeys, List.mem_cons, List.mem_singleton, List.not_mem_nil,
        or_false] at hmem
      rcases hmem with h | h | h | h | h | h | h | h | h | h <;> subst h <;>
        first
          | (left; decide)
          | (right; rfl)
          | exact absurd (by decide) hdecl
    · rw [buildUserData_get, if_pos ⟨hmem, hok⟩, GetOk_fst_of_ok d k hok]
  · rw [if_neg hc, if_neg hid, if_neg halias] at hk
    exact absurd rfl hk

/-- Witness of `buildUserData_keys_are_set` at the state `fullState` and the key `max_budget`. -/
theorem buildUserData_keys_are_set_witness :
    (isOptionalField "max_budget" = true ∨ "max_budget" = "user_role") ∧
      (fullState.GetOk "max_budget").2 = true ∧
      (buildUserData fullState "u1").get "max_budget" = some (fullState.Get "max_budget") :=
  buildUserData_keys_are_set fullState "u1" "max_budget" (by decide) (by decide) (by decide)

/-- C2 at the failing input `fullState`: the state reports `auto_create_key`,
`send_user_invite` and `teams` as set, and the payload built for Create and
Update holds no entry for any of them, neither under the attribute name nor
under the names `auto_create_keys` and `send_email_invite` that the loop asks
the state for. -/
theorem buildUserData_drops_set_flags_and_teams :
    (fullState.GetOk "auto_create_key") = (.bool true, true) ∧
    (fullState.GetOk "send_user_invite") = (.bool true, true) ∧
    (fullState.GetOk "teams") = (.list ["t1"], true) ∧
    (buildUserData fullState "u1").keys =
      ["user_id", "user_alias", "user_email", "key_alias", "user_role", "max_budget",
       "models", "tpm_limit", "rpm_limit"] ∧
    (buildUserData fullState "u1").get "auto_create_key" = none ∧
    (buildUserData fullState "u1").get "send_user_invite" = none ∧
    (buildUserData fullState "u1").get "teams" = none ∧
    (buildUserData fullState "u1").get "auto_create_keys" = none ∧
    (buildUserData fullState "u1").get "send_email_invite" = none := by
  decide

/-! ## Lemmas on Read -/

theorem read_sent (d : ResourceData) (client : Client) :
    (resourceLiteLLMUserRead d client).client.sent = client.sent ++ [readRequest d.id] := by
  unfold resourceLiteLLMUserRead MakeRequest
  cases h : client.script client.sent.length with
  | failure msg => simp [readRequest, endpointUserInfo, ResourceData.Id]
  | response resp =>
    by_cases h4 : resp.StatusCode = StatusNotFound
    · simp [h4, readRequest, endpointUserInfo, ResourceData.Id]
    · cases hb : resp.Body <;> simp [h4, hb, readRequest, endpointUserInfo, ResourceData.Id]

theorem read_of_failure (d : ResourceData) (client : Client) (msg : String)
    (h : client.script client.sent.length = .failure msg) :
    (resourceLiteLLMUserRead d client).err =
        some (.wrap "error reading user" (.transport msg)) ∧
      (resourceLiteLLMUserRead d client).d = d := by
  simp [resourceLiteLLMUserRead, MakeRequest, h]

theorem read_of_not_found (d : ResourceData) (client : Client) (resp : Response)
    (h : client.script client.sent.length = .response resp)
    (h4 : resp.StatusCode = StatusNotFound) :
    (resourceLiteLLMUserRead d client).err = none ∧
      (resourceLiteLLMUserRead d client).d = { d with id := "" } := by
  simp [resourceLiteLLMUserRead, MakeRequest, h, h4, ResourceData.SetId]

theorem read_of_undecodable (d : ResourceData) (client : Client) (resp : Response)
    (h : client.script client.sent.length = .response resp)
    (h4 : resp.StatusCode ≠ StatusNotFound) (hb : resp.Body = none) :
    (resourceLiteLLMUserRead d client).err =
        some (.wrap "error decoding user info response" .decode) ∧
      (resourceLiteLLMUserRead d client).d = d := by
  simp [resourceLiteLLMUserRead, MakeRequest, h, h4, hb]

theorem read_of_record (d : ResourceData) (client : Client) (resp : Response)
    (r : UserRemoteRecord) (h : client.script client.sent.length = .response resp)
    (h4 : resp.StatusCode ≠ StatusNotFound) (hb : resp.Body = some r) :
    (resourceLiteLLMUserRead d client).err = none ∧
      (resourceLiteLLMUserRead d client).d = d.afterRead (decodeUserResponse r) := by
  simp [resourceLiteLLMUserRead, MakeRequest, h, h4, hb, ResourceData.Set,
    ResourceData.afterRead]

theorem handleResponse_of_success (resp : Response) (label : String)
    (h : 200 ≤ resp.StatusCode ∧ resp.StatusCode < 300) :
    handleResponse resp label = none := by
  simp [handleResponse, h]

theorem handleResponse_of_failure (resp : Response) (label : String)
    (h : ¬ (200 ≤ resp.StatusCode ∧ resp.StatusCode < 300)) :
    handleResponse resp label = some (.api label resp.StatusCode) := by
  unfold handleResponse
  rw [if_neg h]

/-- After a successful creation response Create continues as Read on the state
that already holds the generated identifier. -/
theorem create_of_success (d : ResourceData) (client : Client) (userID : String)
    (resp : Response) (h : client.script client.sent.length = .response resp)
    (hs : 200 ≤ resp.StatusCode ∧ resp.StatusCode < 300) :
    resourceLiteLLMUserCreate d client userID =
      resourceLiteLLMUserRead (d.SetId userID)
        ⟨client.script, client.sent ++ [⟨"POST", "/user/new", some (buildUserData d userID)⟩]⟩ := by
  simp [resourceLiteLLMUserCreate, MakeRequest, h, handleResponse_of_success resp _ hs,
    endpointUserNew]

/-- After a successful update response Update continues as Read on the same state. -/
theorem update_of_success (d : ResourceData) (client : Client)
    (resp : Response) (h : client.script client.sent.length = .response resp)
    (hs : 200 ≤ resp.StatusCode ∧ resp.StatusCode < 300) :
    resourceLiteLLMUserUpdate d client =
      resourceLiteLLMUserRead d
        ⟨client.script, client.sent ++ [⟨"POST", "/user/update", some (buildUserData d d.id)⟩]⟩ := by
  simp [resourceLiteLLMUserUpdate, MakeRequest, h, handleResponse_of_success resp _ hs,
    endpointUserUpdate, ResourceData.Id]

/-- The identifier Read leaves behind. -/
theorem read_id (d : ResourceData) (client : Client) :
    (resourceLiteLLMUserRead d client).d.id =
      if (client.script client.sent.length).isNotFound = true then "" else d.id := by
  cases h : client.script client.sent.length with
  | failure msg =>
    rw [(read_of_failure d client msg h).2]
    simp [Reply.isNotFound]
  | response resp =>
    by_cases h4 : resp.StatusCode = StatusNotFound
    · rw [(read_of_not_found d client resp h h4).2]
      simp [Reply.isNotFound, h4]
    · cases hb : resp.Body with
      | none =>
        rw [(read_of_undecodable d client resp h h4 hb).2]
        simp [Reply.isNotFound, h4]
      | some r =>
        rw [(read_of_record d client resp r h h4 hb).2]
        simp [Reply.isNotFound, h4, ResourceData.afterRead]

/-! ## Theorems on the operations -/

/-- C3: when the Read request is answered with status 404, whatever the body
holds (decodable or not), Read returns no error and clears the identifier to
the empty string, leaving every attribute of the state as it was. -/
theorem read_404_clears_identifier (d : ResourceData) (client : Client)
    (body : Option UserRemoteRecord)
    (h : client.script client.sent.length = .response ⟨404, body⟩) :
    (resourceLiteLLMUserRead d client).err = none ∧
      (resourceLiteLLMUserRead d client).d.id = "" ∧
      (resourceLiteLLMUserRead d client).d = { d with id := "" } := by
  have h2 := read_of_not_found d client ⟨404, body⟩ h rfl
  refine ⟨h2.1, ?_, h2.2⟩
  rw [h2.2]

/-- Witness of `read_404_clears_identifier`: `fullState` read against a server
answering 404 with the body `sampleRecord`. -/
theorem read_404_clears_identifier_witness :
    (resourceLiteLLMUserRead fullState (constClient (.response ⟨404, some sampleRecord⟩))).err
        = none ∧
      (resourceLiteLLMUserRead fullState (constClient (.response ⟨404, some sampleRecord⟩))).d.id
        = "" ∧
      (resourceLiteLLMUserRead fullState (constClient (.response ⟨404, some sampleRecord⟩))).d
        = { fullState with id := "" } :=
  read_404_clears_identifier fullState (constClient (.response ⟨404, some sampleRecord⟩))
    (some sampleRecord) rfl

/-- C4 at the failing input: Read of `fullState` answered with status 500 and
the body `sampleRecord` returns no error and rewrites the attributes from the
decoded response, while the response handler reports an error for the same
response. -/
theorem read_accepts_status_500 :
    (resourceLiteLLMUserRead fullState (constClient (.response ⟨500, some sampleRecord⟩))).err
        = none ∧
      (resourceLiteLLMUserRead fullState (constClient (.response ⟨500, some sampleRecord⟩))).d
        = fullState.afterRead (decodeUserResponse sampleRecord) ∧
      (resourceLiteLLMUserRead fullState (constClient (.response ⟨500, some sampleRecord⟩))).d
        = { id := "u1", user_email := "", user_alias := "", key_alias := "ka", user_role := "",
            max_budget := 5, models := ["m"], tpm_limit := 1, rpm_limit := 2,
            auto_create_key := false, send_user_invite := false, teams := ["t2"] } ∧
      handleResponse ⟨500, some sampleRecord⟩ "reading user" = some (.api "reading user" 500) := by
  decide

/-- C5: if the creation request fails in transport or its response has a
non-success status, Create returns an error, the state (identifier and all
attributes) is exactly what it was, and the only request issued is the
creation POST: no Read request follows. -/
theorem create_failure_records_nothing (d : ResourceData) (client : Client) (userID : String)
    (h : (∃ msg, client.script client.sent.length = .failure msg) ∨
      (∃ resp, client.script client.sent.length = .response resp ∧
        ¬ (200 ≤ resp.StatusCode ∧ resp.StatusCode < 300))) :
    (resourceLiteLLMUserCreate d client userID).err ≠ none ∧
      (resourceLiteLLMUserCreate d client userID).d = d ∧
      (resourceLiteLLMUserCreate d client userID).client.sent =
        client.sent ++ [⟨"POST", "/user/new", some (buildUserData d userID)⟩] := by
  rcases h with ⟨msg, h⟩ | ⟨resp, h, hs⟩
  · simp [resourceLiteLLMUserCreate, MakeRequest, h, endpointUserNew]
  · simp [resourceLiteLLMUserCreate, MakeRequest, h, handleResponse_of_failure resp _ hs,
      endpointUserNew]

/-- Witness of `create_failure_records_nothing`: creation answered with status 500. -/
theorem create_failure_records_nothing_witness :
    (resourceLiteLLMUserCreate roleOnly (constClient (.response ⟨500, none⟩)) "new").err ≠ none ∧
      (resourceLiteLLMUserCreate roleOnly (constClient (.response ⟨500, none⟩)) "new").d
        = roleOnly ∧
      (resourceLiteLLMUserCreate roleOnly (constClient (.response ⟨500, none⟩)) "new").client.sent
        = (constClient (.response ⟨500, none⟩)).sent ++
          [⟨"POST", "/user/new", some (buildUserData roleOnly "new")⟩] :=
  create_failure_records_nothing roleOnly (constClient (.response ⟨500, none⟩)) "new"
    (Or.inr ⟨⟨500, none⟩, rfl, by decide⟩)

/-- C6: Delete is atomic on the identifier. If the delete request fails in
transport or its response has a non-success status, Delete returns an error
and the identifier is unchanged; if the response is a success, Delete returns
no error and the identifier is the empty string. -/
theorem delete_atomic_on_identifier (d : ResourceData) (client : Client) (reply : Reply)
    (h : client.script client.sent.length = reply) :
    (reply.isSuccess = false →
      (resourceLiteLLMUserDelete d client).err ≠ none ∧
        (resourceLiteLLMUserDelete d client).d.id = d.id) ∧
    (reply.isSuccess = true →
      (resourceLiteLLMUserDelete d client).err = none ∧
        (resourceLiteLLMUserDelete d client).d.id = "") := by
  subst h
  cases h : client.script client.sent.length with
  | failure msg =>
    simp [resourceLiteLLMUserDelete, MakeRequest, h, Reply.isSuccess]
  | response resp =>
    by_cases hs : 200 ≤ resp.StatusCode ∧ resp.StatusCode < 300
    · simp [resourceLiteLLMUserDelete, MakeRequest, h, Reply.isSuccess, hs,
        handleResponse_of_success resp _ hs, ResourceData.SetId]
    · have hs1 : 200 ≤ resp.StatusCode → ¬ resp.StatusCode < 300 := fun a b => hs ⟨a, b⟩
      simp [resourceLiteLLMUserDelete, MakeRequest, h, Reply.isSuccess,
        handleResponse_of_failure resp _ hs]
      exact fun a => Nat.le_of_not_lt (hs1 a)

/-- Witness of `delete_atomic_on_identifier`: a transport failure, a 500
response and a 200 response to the deletion of `fullState`. -/
theorem delete_atomic_on_identifier_witness :
    ((resourceLiteLLMUserDelete fullState (constClient (.failure "timeout"))).err ≠ none ∧
      (resourceLiteLLMUserDelete fullState (constClient (.failure "timeout"))).d.id = "u1") ∧
    ((resourceLiteLLMUserDelete fullState (constClient (.response ⟨500, none⟩))).err ≠ none ∧
      (resourceLiteLLMUserDelete fullState (constClient (.response ⟨500, none⟩))).d.id = "u1") ∧
    ((resourceLiteLLMUserDelete fullState (constClient (.response ⟨200, none⟩))).err = none ∧
      (resourceLiteLLMUserDelete fullState (constClient (.response ⟨200, none⟩))).d.id = "") :=
  ⟨(delete_atomic_on_identifier fullState (constClient (.failure "timeout")) _ rfl).1 rfl,
   (delete_atomic_on_identifier fullState (constClient (.response ⟨500, none⟩)) _ rfl).1 rfl,
   (delete_atomic_on_identifier fullState (constClient (.response ⟨200, none⟩)) _ rfl).2 rfl⟩

/-- C7 at the failing input: Read of `fullState` answered with status 200 and
the body `sampleRecord` returns no error, yet afterwards user_email,
user_alias and user_role are the empty string and auto_create_key and
send_user_invite are false, not the values of the record, because Read copies
them from unexported fields the decoder never fills; key_alias is not written
and keeps its previous value `ka`, not the record value `rk`. Only max_budget,
models, tpm_limit, rpm_limit and teams equal the record. -/
theorem read_resets_unexported_fields :
    (resourceLiteLLMUserRead fullState (constClient (.response ⟨200, some sampleRecord⟩))).err
        = none ∧
      (resourceLiteLLMUserRead fullState (constClient (.response ⟨200, some sampleRecord⟩))).d
        = { id := "u1", user_email := "", user_alias := "", key_alias := "ka", user_role := "",
            max_budget := 5, models := ["m"], tpm_limit := 1, rpm_limit := 2,
            auto_create_key := false, send_user_invite := false, teams := ["t2"] } ∧
      sampleRecord.user_email = "x@y.z" ∧ sampleRecord.user_alias = "remote" ∧
      sampleRecord.key_alias = "rk" ∧ sampleRecord.user_role = "customer" ∧
      sampleRecord.auto_create_key = true ∧ sampleRecord.send_user_invite = true := by
  decide

/-- C8: the first request of each operation matches the endpoint table.
Create sends POST /user/new and Update sends POST /user/update, each with the
payload of `buildUserData`, whose `user_id` entry is the identifier (the
generated one for Create, the state's for Update); Read sends
GET /user/info?user_id=id with no body; Delete sends POST /user/delete with a
body whose only entry is `user_ids`, the one-element list holding id. -/
theorem first_request_matches_endpoint_table (d : ResourceData) (client : Client)
    (userID : String) :
    (∃ rest, (resourceLiteLLMUserCreate d client userID).client.sent =
      client.sent ++ (⟨"POST", "/user/new", some (buildUserData d userID)⟩ :: rest)) ∧
    (buildUserData d userID).get "user_id" = some (.str userID) ∧
    (∃ rest, (resourceLiteLLMUserUpdate d client).client.sent =
      client.sent ++ (⟨"POST", "/user/update", some (buildUserData d d.id)⟩ :: rest)) ∧
    (buildUserData d d.id).get "user_id" = some (.str d.id) ∧
    (∃ rest, (resourceLiteLLMUserRead d client).client.sent =
      client.sent ++ (⟨"GET", "/user/info?user_id=" ++ d.id, none⟩ :: rest)) ∧
    (∃ rest, (resourceLiteLLMUserDelete d client).client.sent =
      client.sent ++ (⟨"POST", "/user/delete", some [("user_ids", .list [d.id])]⟩ :: rest)) := by
  have hid : ∀ u : String, (buildUserData d u).get "user_id" = some (.str u) := by
    intro u
    rw [buildUserData_get]
    simp [userDataKeys]
  refine ⟨?_, hid userID, ?_, hid d.id, ⟨[], ?_⟩, ?_⟩
  · cases h : client.script client.sent.length with
    | failure msg =>
      exact ⟨[], by simp [resourceLiteLLMUserCreate, MakeRequest, h, endpointUserNew]⟩
    | response resp =>
      by_cases hs : 200 ≤ resp.StatusCode ∧ resp.StatusCode < 300
      · refine ⟨[readRequest userID], ?_⟩
        rw [create_of_success d client userID resp h hs, read_sent]
        simp [ResourceData.SetId]
      · exact ⟨[], by simp [resourceLiteLLMUserCreate, MakeRequest, h,
          handleResponse_of_failure resp _ hs, endpointUserNew]⟩
  · cases h : client.script client.sent.length with
    | failure msg =>
      exact ⟨[], by simp [resourceLiteLLMUserUpdate, MakeRequest, h, endpointUserUpdate,
        ResourceData.Id]⟩
    | response resp =>
      by_cases hs : 200 ≤ resp.StatusCode ∧ resp.StatusCode < 300
      · refine ⟨[readRequest d.id], ?_⟩
        rw [update_of_success d client resp h hs, read_sent]
        simp
      · exact ⟨[], by simp [resourceLiteLLMUserUpdate, MakeRequest, h,
          handleResponse_of_failure resp _ hs, endpointUserUpdate, ResourceData.Id]⟩
  · rw [read_sent]
    rfl
  · refine ⟨[], ?_⟩
    cases h : client.script client.sent.length with
    | failure msg =>
      simp [resourceLiteLLMUserDelete, MakeRequest, h, endpointUserDelete, ResourceData.Id]
    | response resp =>
      by_cases hs : 200 ≤ resp.StatusCode ∧ resp.StatusCode < 300
      · simp [resourceLiteLLMUserDelete, MakeRequest, h, handleResponse_of_success resp _ hs,
          endpointUserDelete, ResourceData.Id]
      · simp [resourceLiteLLMUserDelete, MakeRequest, h, handleResponse_of_failure resp _ hs,
          endpointUserDelete, ResourceData.Id]

/-- C9, as the claim states it, fails: Read of `fullState`, whose identifier is
`u1`, answered with status 404 returns with the identifier cleared; so does
Update when its POST succeeds and the follow-up Read is answered with 404. -/
theorem read_404_invalidates_identifier :
    fullState.id = "u1" ∧
    (resourceLiteLLMUserRead fullState (constClient (.response ⟨404, none⟩))).d.id = "" ∧
    (resourceLiteLLMUserUpdate fullState
      (twoStepClient (.response ⟨200, none⟩) (.response ⟨404, none⟩))).d.id = "" := by
  decide

/-- C9, amended: after Read or Update returns, with or without error, the
identifier is still the one the state held, except when the Read request
(Read's own, or the one Update issues after a successful update response) is
answered with status 404: then it is the empty string. It is never replaced
by another identifier. -/
theorem identifier_after_read_and_update (d : ResourceData) (client : Client) :
    (resourceLiteLLMUserRead d client).d.id =
      (if (client.script client.sent.length).isNotFound = true then "" else d.id) ∧
    (resourceLiteLLMUserUpdate d client).d.id =
      (if (client.script client.sent.length).isSuccess = true ∧
          (client.script (client.sent.length + 1)).isNotFound = true then ""
       else d.id) := by
  refine ⟨read_id d client, ?_⟩
  cases h : client.script client.sent.length with
  | failure msg =>
    simp [resourceLiteLLMUserUpdate, MakeRequest, h, Reply.isSuccess]
  | response resp =>
    by_cases hs : 200 ≤ resp.StatusCode ∧ resp.StatusCode < 300
    · rw [update_of_success d client resp h hs, read_id]
      simp [Reply.isSuccess, hs]
    · have hc : ¬ ((200 ≤ resp.StatusCode ∧ resp.StatusCode < 300) ∧
          (client.script (client.sent.length + 1)).isNotFound = true) := fun a => hs a.1
      simp only [resourceLiteLLMUserUpdate, MakeRequest, h,
        handleResponse_of_failure resp _ hs, Reply.isSuccess, decide_eq_true_eq]
      rw [if_neg hc]

/-- C10: when the creation request succeeds, the generated identifier is in
the state before the follow-up Read is issued (the Read request carries it).
If that Read fails in transport or in decoding, Create returns an error while
the identifier of the state is the generated one; if that Read is answered
with 404, Create returns no error while the identifier is the empty string. -/
theorem create_success_then_read (d : ResourceData) (client : Client) (userID : String)
    (resp : Response) (h : client.script client.sent.length = .response resp)
    (hs : 200 ≤ resp.StatusCode ∧ resp.StatusCode < 300) :
    (resourceLiteLLMUserCreate d client userID).client.sent =
      client.sent ++ [⟨"POST", "/user/new", some (buildUserData d userID)⟩,
        ⟨"GET", "/user/info?user_id=" ++ userID, none⟩] ∧
    (((∃ msg, client.script (client.sent.length + 1) = .failure msg) ∨
      (∃ r2, client.script (client.sent.length + 1) = .response r2 ∧
        r2.StatusCode ≠ 404 ∧ r2.Body = none)) →
      (resourceLiteLLMUserCreate d client userID).err ≠ none ∧
        (resourceLiteLLMUserCreate d client userID).d.id = userID) ∧
    ((∃ r2, client.script (client.sent.length + 1) = .response r2 ∧ r2.StatusCode = 404) →
      (resourceLiteLLMUserCreate d client userID).err = none ∧
        (resourceLiteLLMUserCreate d client userID).d.id = "") := by
  rw [create_of_success d client userID resp h hs]
  refine ⟨?_, ?_, ?_⟩
  · rw [read_sent]
    simp [readRequest, ResourceData.SetId]
  · rintro (⟨msg, h2⟩ | ⟨r2, h2, h4, hb⟩)
    · have hr := read_of_failure (d.SetId userID)
        ⟨client.script, client.sent ++ [⟨"POST", "/user/new", some (buildUserData d userID)⟩]⟩
        msg (by simpa using h2)
      rw [hr.1, hr.2]
      simp [ResourceData.SetId]
    · have hr := read_of_undecodable (d.SetId userID)
        ⟨client.script, client.sent ++ [⟨"POST", "/user/new", some (buildUserData d userID)⟩]⟩
        r2 (by simpa using h2) h4 hb
      rw [hr.1, hr.2]
      simp [ResourceData.SetId]
  · rintro ⟨r2, h2, h4⟩
    have hr := read_of_not_found (d.SetId userID)
      ⟨client.script, client.sent ++ [⟨"POST", "/user/new", some (buildUserData d userID)⟩]⟩
      r2 (by simpa using h2) h4
    rw [hr.1, hr.2]
    simp

/-- Witness of `create_success_then_read`: creation answered with 200, the
follow-up Read failing in transport in one run and answered with 404 in
another. -/
theorem create_success_then_read_witness :
    ((resourceLiteLLMUserCreate roleOnly
        (twoStepClient (.response ⟨200, none⟩) (.failure "timeout")) "new").err ≠ none ∧
      (resourceLiteLLMUserCreate roleOnly
        (twoStepClient (.response ⟨200, none⟩) (.failure "timeout")) "new").d.id = "new") ∧
    ((resourceLiteLLMUserCreate roleOnly
        (twoStepClient (.response ⟨200, none⟩) (.response ⟨404, none⟩)) "new").err = none ∧
      (resourceLiteLLMUserCreate roleOnly
        (twoStepClient (.response ⟨200, none⟩) (.response ⟨404, none⟩)) "new").d.id = "") :=
  ⟨(create_success_then_read roleOnly
      (twoStepClient (.response ⟨200, none⟩) (.failure "timeout")) "new" ⟨200, none⟩ rfl
      (by decide)).2.1 (Or.inl ⟨"timeout", rfl⟩),
   (create_success_then_read roleOnly
      (twoStepClient (.response ⟨200, none⟩) (.response ⟨404, none⟩)) "new" ⟨200, none⟩ rfl
      (by decide)).2.2 ⟨⟨404, none⟩, rfl, rfl⟩⟩

end litellm
